import Mathlib

/-!
Shallow embedding of the mediaaudit repository (Go): a directory scanner that
classifies files by extension, probes video files with an external `mediainfo`
subprocess, and emits one CSV row per successfully probed file.

The repository holds two near-duplicate variants of the program:
  * variant 000: `main` (src/unnamed/part_000) together with `getReport`
    (src/report.go) — the probe goroutine returns early after logging a
    probe error;
  * variant 001: a standalone file (src/unnamed/part_001) whose goroutine
    logs a probe error but does NOT return, falling through to the row write.

Floating-point fields (SizeMB, BitrateMbps) are shadowed by exact rationals
with round-half-away-from-zero, mirroring the arithmetic shape of Go's
`math.Round((x/1048576)*k)/k`; no theorem below depends on float64 rounding
behaviour.  External effects (the subprocess, the walk callback's error
argument, a flush failure of the CSV writer) are inputs to the model.

The output stream is modelled with the buffering of `encoding/csv`:
`csv.NewWriter(os.Stdout)` wraps a `bufio.Writer`, so `writer.Write` only
appends to the in-process buffer and data reaches standard output when
`writer.Flush()` runs.  `main` writes the header WITHOUT flushing (its
comment counts on the goroutines to flush), each probe goroutine flushes
after its row, and nothing flushes at process exit, so whatever is still
buffered when `main` returns never reaches standard output.
-/

namespace MediaAudit

/-- Go's `strings.Split(s, ",")` on the character list: split at every comma,
keeping empty fields; `n` commas yield `n+1` fields. -/
def splitOnCommaList : List Char → List Char → List String
  | [], acc => [String.mk acc.reverse]
  | c :: rest, acc =>
    if c = ',' then String.mk acc.reverse :: splitOnCommaList rest []
    else splitOnCommaList rest (c :: acc)

/-- Embedding of `strings.Split(s, ",")`. -/
def splitOnComma (s : String) : List String :=
  splitOnCommaList s.toList []

/-- Embedding of `strings.TrimSuffix(s, "\n")`: drop one trailing newline. -/
def trimSuffixNewlineList (cs : List Char) : List Char :=
  if cs.getLast? = some '\n' then cs.dropLast else cs

/-- String version of `strings.TrimSuffix(s, "\n")`. -/
def trimSuffixNewline (s : String) : String :=
  String.mk (trimSuffixNewlineList s.toList)

/-- ASCII digit test, as in Go's integer parsing. -/
def isAsciiDigit (c : Char) : Bool :=
  48 ≤ c.toNat && c.toNat ≤ 57

/-- Decimal value of a digit list (left to right); `none` if empty or any
non-digit occurs.  Mirrors the digit loop of Go's `strconv.ParseInt`. -/
def decimalDigits? (cs : List Char) : Option Nat :=
  if cs = [] then none
  else if cs.all isAsciiDigit then
    some (cs.foldl (fun acc c => acc * 10 + (c.toNat - 48)) 0)
  else none

/-- Error values produced by `getReport` (Go `error` results), each carrying
the data the corresponding `fmt.Errorf` / strconv error embeds. -/
inductive GoErr where
  | cmdFailed (msg : String)
  | missingFullInfo (path : String) (info : List String)
  | atoiBadInput (s : String)
  | atoiOutOfRange (s : String)
  | unableToGetBitrate (path : String) (info : List String)
deriving Repr, DecidableEq

/-- Whether a Go error message names the given file path (the `%q`-embedded
path of the two `fmt.Errorf` calls in `getReport`). -/
def GoErr.namesPath : GoErr → String → Bool
  | .cmdFailed _, _ => false
  | .missingFullInfo p _, q => p = q
  | .atoiBadInput _, _ => false
  | .atoiOutOfRange _, _ => false
  | .unableToGetBitrate p _, q => p = q

/-- Embedding of Go's `strconv.Atoi`: optional sign, then one or more decimal
digits; the result must fit in a signed 64-bit int. -/
def Atoi (s : String) : Except GoErr Int :=
  match decimalDigits?
      (if s.toList.head? = some '-' ∨ s.toList.head? = some '+' then
        s.toList.tail
      else s.toList) with
  | none => .error (.atoiBadInput s)
  | some n =>
    let v : Int := if s.toList.head? = some '-' then -(n : Int) else (n : Int)
    if v < -(2 ^ 63) ∨ 2 ^ 63 ≤ v then .error (.atoiOutOfRange s)
    else .ok v

/-- Round half away from zero of the exact fraction `num / den` (`den > 0`),
the semantics of Go's `math.Round`: for `num ≥ 0` this is
`⌊(2 num + den) / (2 den)⌋`, and the negative case mirrors it. -/
def roundHalfAwayFromZeroFrac (num den : Int) : Int :=
  if num < 0 then -((-num * 2 + den).fdiv (den * 2))
  else (num * 2 + den).fdiv (den * 2)

/-- Rational shadow of `math.Round((float64(v)/1048576)*1000) / 1000`
(report.go line 76): `v/1048576*1000` is the exact fraction
`(v*1000)/1048576`, rounded half away from zero to an integer, then divided
by 1000 exactly. -/
def bitrateMbpsQ (v : Int) : ℚ :=
  Rat.divInt (roundHalfAwayFromZeroFrac (v * 1000) 1048576) 1000

/-- Rational shadow of `math.Round((float64(size)/1048576)*100) / 100`
(the caller's SizeMB computation), at two-decimal precision. -/
def sizeMBQ (bytes : Int) : ℚ :=
  Rat.divInt (roundHalfAwayFromZeroFrac (bytes * 100) 1048576) 100

/-- The `Report` struct of report.go.  Field defaults give Go's zero value
of the struct. -/
structure Report where
  Name : String := ""
  Codec : String := ""
  SizeMB : ℚ := 0
  BitrateType : String := ""
  BitrateMbps : ℚ := 0
  Width : Int := 0
  Height : Int := 0
deriving Repr, DecidableEq

/-- The column headers shared by both variants:
`reportHeaders = [Codec, SizeMB, BitrateType, BitrateMbps, Width, Height]`. -/
def reportHeaders : List String :=
  ["Codec", "SizeMB", "BitrateType", "BitrateMbps", "Width", "Height"]

/-- The header row written before the walk: `"Name"` prepended to
`reportHeaders`. -/
def headerFields : List String :=
  "Name" :: reportHeaders

/-- Tail of `getReport` once a bitrate field has been selected: parse the
selected bitrate string and build the report (report.go lines 71–84).  Every
Go error return hands back a pointer to a fresh zero-valued Report, modelled
as `(some default, some e)`: the returned pointer is never nil. -/
def finishReport (codec : String) (width height : Int)
    (bitrateType bitrateString : String) : Option Report × Option GoErr :=
  match Atoi bitrateString with
  | .error e => (some {}, some e)
  | .ok bitrateInt =>
    (some { Codec := codec, BitrateType := bitrateType,
            BitrateMbps := bitrateMbpsQ bitrateInt,
            Width := width, Height := height }, none)

/-- Parsing part of `getReport` (report.go lines 38–84), taking the already
split field list: require exactly 7 fields, parse width/height, then the
first-match-wins bitrate chain 4 → 5 → 6 → 0. -/
def parseReport (path : String) (info : List String) :
    Option Report × Option GoErr :=
  if info.length ≠ 7 then (some {}, some (.missingFullInfo path info))
  else
    match Atoi (info.getD 2 "") with
    | .error e => (some {}, some e)
    | .ok width =>
      match Atoi (info.getD 3 "") with
      | .error e => (some {}, some e)
      | .ok height =>
        if info.getD 4 "" ≠ "" then
          finishReport (info.getD 1 "") width height "Variable" (info.getD 4 "")
        else if info.getD 5 "" ≠ "" then
          finishReport (info.getD 1 "") width height "Constant" (info.getD 5 "")
        else if info.getD 6 "" ≠ "" then
          finishReport (info.getD 1 "") width height "Nominal" (info.getD 6 "")
        else if info.getD 0 "" ≠ "" then
          finishReport (info.getD 1 "") width height "Overall" (info.getD 0 "")
        else (some {}, some (.unableToGetBitrate path info))

/-- Embedding of `getReport` (report.go lines 27–85).  The subprocess result
is an input: `.error msg` models a failed `cmd.Output()`, `.ok out` its raw
stdout.  The Go signature `(*Report, error)` becomes
`Option Report × Option GoErr` so that nil-ness of the pointer is a fact of
the model, not of the type. -/
def getReport (path : String) (probe : Except String String) :
    Option Report × Option GoErr :=
  match probe with
  | .error msg => (some {}, some (.cmdFailed msg))
  | .ok output => parseReport path (splitOnComma (trimSuffixNewline output))

/-- Suffix-anchored regular-expression alternative such as Go's
`\.mp4$`: the name ends with the given suffix. -/
def regexSuffixMatch (suffix name : String) : Bool :=
  List.isSuffixOf suffix.toList name.toList

/-- Embedding of `videoFileRegex.MatchString`
(regex `\.mp4$|\.mkv$|\.avi$|\.mov$`). -/
def videoFileRegexMatch (name : String) : Bool :=
  regexSuffixMatch ".mp4" name || regexSuffixMatch ".mkv" name ||
  regexSuffixMatch ".avi" name || regexSuffixMatch ".mov" name

/-- Embedding of `subtitleFileRegex.MatchString`
(regex `\.srt$|\.idx$|\.sub$`). -/
def subtitleFileRegexMatch (name : String) : Bool :=
  regexSuffixMatch ".srt" name || regexSuffixMatch ".idx" name ||
  regexSuffixMatch ".sub" name

/-- The classification a file name receives in the walk callback's switch. -/
inductive FileClass where
  | video
  | subtitle
  | other
deriving Repr, DecidableEq

/-- The walk callback's switch on a non-directory entry, in source order:
subtitle regex first, then the negated video regex, else video. -/
def classify (name : String) : FileClass :=
  if subtitleFileRegexMatch name then .subtitle
  else if ¬ videoFileRegexMatch name then .other
  else .video

/-- One diagnostic line on standard error. -/
inductive LogMsg where
  | probeError (e : GoErr)
  | skipNotice (name : String)
  | accessError (path : String) (msg : String)
  | flushError (name : String) (e : GoErr)
deriving Repr, DecidableEq

/-- One entry handed to the walk callback, together with the environment's
behaviour for it: the callback's error argument, the probe subprocess
result, and whether the underlying stream fails this task's flush. -/
structure WalkEntry where
  path : String
  name : String
  isDir : Bool
  size : Int
  accessErr : Option String
  probe : Except String String
  flushFails : Bool

/-- One line of the CSV output, kept structured: the header row, or one
data row (file name plus its report). -/
inductive CsvLine where
  | header
  | data (name : String) (r : Report)
deriving Repr, DecidableEq

/-- The buffered CSV output stream: `csv.NewWriter(os.Stdout)` writes into
a `bufio.Writer`, so lines sit in `buffered` until a `Flush` moves them to
`flushed` (standard output).  `failed` is the sticky `writer.Error()`
state.  (The underlying 4096-byte bufio capacity, which would auto-flush a
full buffer, is not modelled: every scenario considered here buffers at
most a couple of short lines between flushes.) -/
structure OutStream where
  flushed : List CsvLine
  buffered : List CsvLine
  failed : Bool
deriving Repr, DecidableEq

/-- `writer.Write`: append one line to the in-process buffer. -/
def OutStream.write (o : OutStream) (l : CsvLine) : OutStream :=
  { o with buffered := o.buffered ++ [l] }

/-- `writer.Flush()`: on success the buffered lines reach standard output;
on failure (or when the writer already failed) the sticky error is set and
delivery of the buffered data is not observed — we leave it pending, a
choice no theorem below depends on. -/
def OutStream.flush (o : OutStream) (fails : Bool) : OutStream :=
  if o.failed || fails then { o with failed := true }
  else { flushed := o.flushed ++ o.buffered, buffered := [], failed := false }

/-- Accumulated observable state of a scan: the buffered output stream,
stderr log lines, and whether some goroutine panicked (a nil-interface
dereference, which aborts the whole process). -/
structure ScanState where
  out : OutStream
  logs : List LogMsg
  panicked : Bool
deriving Repr, DecidableEq

/-- State before the walk: `main` has written the header row into the CSV
writer WITHOUT flushing it (part_000 line 54: the comment counts on the
goroutines to flush), so it is buffered, and nothing has reached standard
output. -/
def initState : ScanState :=
  { out := { flushed := [], buffered := [CsvLine.header], failed := false },
    logs := [], panicked := false }

/-- The probe goroutine of variant 000 (src/unnamed/part_000 lines 75–100):
on probe error, log it and return, writing nothing; on success, set SizeMB,
write one row and flush.  If `writer.Error()` is then non-nil, the code
logs `err.Error()` — but `err` is the probe error, which is nil on this
path, so the log call dereferences a nil interface and panics. -/
def probeTask_000 (e : WalkEntry) (st : ScanState) : ScanState :=
  let res := getReport e.path e.probe
  match res.2 with
  | some err => { st with logs := st.logs ++ [.probeError err] }
  | none =>
    let report := res.1.getD {}
    let report := { report with SizeMB := sizeMBQ e.size }
    let out := (st.out.write (.data e.name report)).flush e.flushFails
    if out.failed then
      { st with out := out, panicked := true }
    else
      { st with out := out }

/-- The probe goroutine of variant 001 (src/unnamed/part_001 lines 76–97):
identical, except that after logging a probe error it does NOT return — it
falls through, sets SizeMB on the zero-valued report, writes a row and
flushes.  In the `writer.Error()` branch `err.Error()` is the probe error:
well-defined when the probe failed, a nil dereference (panic) when it
succeeded. -/
def probeTask_001 (e : WalkEntry) (st : ScanState) : ScanState :=
  let res := getReport e.path e.probe
  let st1 : ScanState :=
    match res.2 with
    | some err => { st with logs := st.logs ++ [.probeError err] }
    | none => st
  let report := res.1.getD {}
  let report := { report with SizeMB := sizeMBQ e.size }
  let out := (st1.out.write (.data e.name report)).flush e.flushFails
  if out.failed then
    match res.2 with
    | some err =>
      { st1 with out := out, logs := st1.logs ++ [.flushError e.name err] }
    | none => { st1 with out := out, panicked := true }
  else
    { st1 with out := out }

/-- The `filepath.Walk` loop with the callback of both variants' `main`:
an access error is logged and returned, which makes `filepath.Walk` stop —
the remaining entries are never visited and the error is the walk's result.
Directories and subtitle files are skipped silently; other non-video files
are skipped with a notice; video files run the probe task.  The task
handler is a parameter so both goroutine variants share this loop. -/
def walkFiles (task : WalkEntry → ScanState → ScanState) :
    List WalkEntry → ScanState → ScanState × Option String
  | [], st => (st, none)
  | e :: rest, st =>
    match e.accessErr with
    | some msg =>
      ({ st with logs := st.logs ++ [.accessError e.path msg] }, some msg)
    | none =>
      if e.isDir then walkFiles task rest st
      else if subtitleFileRegexMatch e.name then walkFiles task rest st
      else if ¬ videoFileRegexMatch e.name then
        walkFiles task rest { st with logs := st.logs ++ [.skipNotice e.name] }
      else
        walkFiles task rest (task e st)

/-- What a variant-000 run over the given walk entries leaves on standard
output when the process exits: only the flushed lines — `main` never
flushes after the walk, so anything still buffered is discarded. -/
def stdoutAtExit_000 (entries : List WalkEntry) : List CsvLine :=
  (walkFiles probeTask_000 entries initState).1.out.flushed

/-! Helper lemmas shared by the claim theorems. -/

/-- Two suffix-regex matches of equal suffix length on the same name force
the suffixes to coincide. -/
theorem suffixMatch_eq_of_length (a b name : String)
    (hab : a.toList.length = b.toList.length)
    (ha : regexSuffixMatch a name = true)
    (hb : regexSuffixMatch b name = true) :
    a.toList = b.toList := by
  rw [regexSuffixMatch, List.isSuffixOf_iff_suffix] at ha hb
  exact (List.suffix_of_suffix_length_le ha hb (le_of_eq hab)).eq_of_length hab

/-- Distinct suffixes of the same length cannot both match a name. -/
theorem not_both_suffix (a b name : String)
    (hab : a.toList.length = b.toList.length) (hne : a.toList ≠ b.toList)
    (ha : regexSuffixMatch a name = true) :
    regexSuffixMatch b name = false := by
  by_contra hb
  exact hne (suffixMatch_eq_of_length a b name hab ha
    (Bool.not_eq_false _ ▸ hb))

/-- A name matching the video regex never matches the subtitle regex: the
seven extensions are pairwise distinct four-character suffixes. -/
theorem video_not_subtitle (name : String)
    (h : videoFileRegexMatch name = true) :
    subtitleFileRegexMatch name = false := by
  rw [subtitleFileRegexMatch, Bool.or_eq_false_iff, Bool.or_eq_false_iff]
  rw [videoFileRegexMatch, Bool.or_eq_true, Bool.or_eq_true, Bool.or_eq_true] at h
  rcases h with ((h | h) | h) | h <;>
    exact ⟨⟨not_both_suffix _ _ _ (by decide) (by decide) h,
            not_both_suffix _ _ _ (by decide) (by decide) h⟩,
           not_both_suffix _ _ _ (by decide) (by decide) h⟩

/-- `Atoi` only returns a negative value when the string begins with a
minus sign. -/
theorem atoi_nonneg (s : String) (v : Int) (hok : Atoi s = .ok v)
    (h : ¬ s.toList.head? = some '-') : 0 ≤ v := by
  unfold Atoi at hok
  split at hok
  · cases hok
  · simp only [if_neg h] at hok
    split at hok
    · cases hok
    · cases hok
      exact Int.natCast_nonneg _

/-- Unfolding of `parseReport` on an explicit seven-field list. -/
theorem parseReport_seven (path f0 f1 f2 f3 f4 f5 f6 : String) :
    parseReport path [f0, f1, f2, f3, f4, f5, f6] =
      match Atoi f2 with
      | .error e => (some {}, some e)
      | .ok width =>
        match Atoi f3 with
        | .error e => (some {}, some e)
        | .ok height =>
          if f4 ≠ "" then finishReport f1 width height "Variable" f4
          else if f5 ≠ "" then finishReport f1 width height "Constant" f5
          else if f6 ≠ "" then finishReport f1 width height "Nominal" f6
          else if f0 ≠ "" then finishReport f1 width height "Overall" f0
          else (some {},
            some (.unableToGetBitrate path [f0, f1, f2, f3, f4, f5, f6])) :=
  rfl

/-- `finishReport` always produces a record (zero-valued on error), and on
success its bitrate classification is the selected one. -/
theorem finishReport_total (codec : String) (width height : Int)
    (bt bs : String) :
    (finishReport codec width height bt bs).1.isSome = true ∧
    ((finishReport codec width height bt bs).2.isSome = true →
      (finishReport codec width height bt bs).1 = some {}) ∧
    ((finishReport codec width height bt bs).2 = none →
      ∃ r, (finishReport codec width height bt bs).1 = some r ∧
        r.BitrateType = bt) := by
  unfold finishReport
  rcases h : Atoi bs with e | n <;> simp

/-- `parseReport` always produces a record (zero-valued on error), and on
success the bitrate classification is one of the four named kinds. -/
theorem parseReport_total (path : String) (info : List String) :
    (parseReport path info).1.isSome = true ∧
    ((parseReport path info).2.isSome = true →
      (parseReport path info).1 = some {}) ∧
    ((parseReport path info).2 = none →
      ∃ r, (parseReport path info).1 = some r ∧
        (r.BitrateType = "Variable" ∨ r.BitrateType = "Constant" ∨
         r.BitrateType = "Nominal" ∨ r.BitrateType = "Overall")) := by
  unfold parseReport
  split
  · simp
  · split
    · simp
    · split
      · simp
      · split
        · unfold finishReport
          split <;> simp
        · split
          · unfold finishReport
            split <;> simp
          · split
            · unfold finishReport
              split <;> simp
            · split
              · unfold finishReport
                split <;> simp
              · simp

/-- A walk whose entries are all directories or subtitle files (and all
accessible) changes nothing: no rows, no logs, no walk error. -/
theorem walkFiles_skips (task : WalkEntry → ScanState → ScanState)
    (entries : List WalkEntry) (st : ScanState)
    (h : ∀ e ∈ entries, e.accessErr = none ∧
      (e.isDir = true ∨ subtitleFileRegexMatch e.name = true)) :
    walkFiles task entries st = (st, none) := by
  induction entries generalizing st with
  | nil => rfl
  | cons e rest ih =>
    obtain ⟨hacc, hcls⟩ := h e (List.mem_cons_self e rest)
    have hrest : ∀ x ∈ rest, x.accessErr = none ∧
        (x.isDir = true ∨ subtitleFileRegexMatch x.name = true) :=
      fun x hx => h x (List.mem_cons_of_mem e hx)
    rw [walkFiles, hacc]
    rcases hcls with hdir | hsub
    · rw [hdir]
      exact ih st hrest
    · by_cases hd : e.isDir
      · rw [if_pos hd]
        exact ih st hrest
      · rw [if_neg hd, if_pos hsub]
        exact ih st hrest

/-- On success, `parseReport` obtained Width and Height by `Atoi` on
fields 2 and 3. -/
theorem parseReport_ok_width_height (path : String) (info : List String)
    (r : Report) (hok : parseReport path info = (some r, none)) :
    Atoi (info.getD 2 "") = .ok r.Width ∧
    Atoi (info.getD 3 "") = .ok r.Height := by
  unfold parseReport at hok
  split at hok
  · exact absurd hok (by simp)
  · split at hok
    · exact absurd hok (by simp)
    · rename_i w heq2
      split at hok
      · exact absurd hok (by simp)
      · rename_i hgt heq3
        have finv : ∀ bt bs : String,
            finishReport (info.getD 1 "") w hgt bt bs = (some r, none) →
            Atoi (info.getD 2 "") = .ok r.Width ∧
            Atoi (info.getD 3 "") = .ok r.Height := by
          intro bt bs hfin
          unfold finishReport at hfin
          split at hfin
          · exact absurd hfin (by simp)
          · simp only [Prod.mk.injEq, Option.some.injEq] at hfin
            obtain ⟨hr, -⟩ := hfin
            subst hr
            exact ⟨heq2, heq3⟩
        split at hok
        · exact finv _ _ hok
        · split at hok
          · exact finv _ _ hok
          · split at hok
            · exact finv _ _ hok
            · split at hok
              · exact finv _ _ hok
              · exact absurd hok (by simp)

/-! Theorems for the claims. -/

/-- C1: variant part_001 violates the row-xor-error invariant.  The probe
goroutine there logs the probe error but does not return, so a file whose
probe subprocess fails gets BOTH one logged error and one CSV row (a
zero-valued record carrying only the file size) flushed to standard
output. -/
theorem probe_error_also_writes_row_001 :
    probeTask_001 ⟨"d/clip.mov", "clip.mov", false, 5000000, none,
        .error "exit status 1", false⟩ initState =
      { out := { flushed := [CsvLine.header,
                   CsvLine.data "clip.mov" { SizeMB := sizeMBQ 5000000 }],
                 buffered := [], failed := false },
        logs := [.probeError (.cmdFailed "exit status 1")],
        panicked := false } := by
  decide

/-- C2: on a 7-field probe line with fields 0, 4, 5 and 6 all empty,
`getReport` does return the bitrate error naming the path — but the caller
cited by the claim (variant part_001) still writes and flushes a CSV row
for the file, because it does not return after logging the error. -/
theorem bitrate_undetermined_still_writes_row_001 :
    getReport "dir/show.mkv" (.ok ",AVC,1280,720,,,") =
      (some {}, some (.unableToGetBitrate "dir/show.mkv"
        ["", "AVC", "1280", "720", "", "", ""])) ∧
    GoErr.namesPath (.unableToGetBitrate "dir/show.mkv"
        ["", "AVC", "1280", "720", "", "", ""]) "dir/show.mkv" = true ∧
    (probeTask_001 ⟨"dir/show.mkv", "show.mkv", false, 1000, none,
        .ok ",AVC,1280,720,,,", false⟩ initState).out.flushed =
      [CsvLine.header, CsvLine.data "show.mkv" { SizeMB := sizeMBQ 1000 }] := by
  decide

/-- C3: the header-only claim fails against the code.  With a root holding
only `show.srt`, the header row sits in the csv.Writer's buffer (main
deliberately skips flushing it, counting on a probe goroutine to flush),
no video file is ever dispatched, so `writer.Flush()` never runs: standard
output ends the run EMPTY, the header still buffered, though indeed no
data row exists and no error is logged and the walk succeeds. -/
theorem subtitle_only_stdout_empty :
    stdoutAtExit_000 [⟨"/media", "media", true, 0, none, .error "", false⟩,
      ⟨"/media/show.srt", "show.srt", false, 10, none, .error "", false⟩] = [] ∧
    (walkFiles probeTask_000
      [⟨"/media", "media", true, 0, none, .error "", false⟩,
       ⟨"/media/show.srt", "show.srt", false, 10, none, .error "", false⟩]
      initState).1.out.buffered = [CsvLine.header] ∧
    (walkFiles probeTask_000
      [⟨"/media", "media", true, 0, none, .error "", false⟩,
       ⟨"/media/show.srt", "show.srt", false, 10, none, .error "", false⟩]
      initState).1.logs = [] ∧
    (walkFiles probeTask_000
      [⟨"/media", "media", true, 0, none, .error "", false⟩,
       ⟨"/media/show.srt", "show.srt", false, 10, none, .error "", false⟩]
      initState).2 = none := by
  decide

/-- C4: a flush failure on the probe-success path is NOT logged-and-survived;
the code logs `err.Error()` where `err` is the (nil) probe error, a nil
dereference that panics and aborts the process.  The flush failure itself
is never logged, and neither the row nor the header reaches standard
output. -/
theorem flush_failure_panics_000 :
    probeTask_000 ⟨"d/vid.mp4", "vid.mp4", false, 2097152, none,
        .ok ",AVC,640,480,,1000000,", true⟩ initState =
      { out := { flushed := [],
                 buffered := [CsvLine.header,
                   CsvLine.data "vid.mp4"
                     { Codec := "AVC", SizeMB := sizeMBQ 2097152,
                       BitrateType := "Constant",
                       BitrateMbps := bitrateMbpsQ 1000000,
                       Width := 640, Height := 480 }],
                 failed := true },
        logs := [], panicked := true } := by
  decide

/-- C5: for any 7-field probe output whose width and height parse, the
bitrate classification is the first-match-wins chain field 4 → "Variable",
else field 5 → "Constant", else field 6 → "Nominal", else field 0 →
"Overall", with the bitrate value taken from the selected field regardless
of the remaining fields' content. -/
theorem bitrate_priority_chain (path s : String)
    (f0 f1 f2 f3 f4 f5 f6 : String)
    (hsplit : splitOnComma (trimSuffixNewline s) = [f0, f1, f2, f3, f4, f5, f6])
    (w h : Int) (hw : Atoi f2 = .ok w) (hh : Atoi f3 = .ok h) :
    (∀ v, f4 ≠ "" → Atoi f4 = .ok v →
      getReport path (.ok s) =
        (some { Codec := f1, BitrateType := "Variable",
                BitrateMbps := bitrateMbpsQ v, Width := w, Height := h },
          none)) ∧
    (∀ v, f4 = "" → f5 ≠ "" → Atoi f5 = .ok v →
      getReport path (.ok s) =
        (some { Codec := f1, BitrateType := "Constant",
                BitrateMbps := bitrateMbpsQ v, Width := w, Height := h },
          none)) ∧
    (∀ v, f4 = "" → f5 = "" → f6 ≠ "" → Atoi f6 = .ok v →
      getReport path (.ok s) =
        (some { Codec := f1, BitrateType := "Nominal",
                BitrateMbps := bitrateMbpsQ v, Width := w, Height := h },
          none)) ∧
    (∀ v, f4 = "" → f5 = "" → f6 = "" → f0 ≠ "" → Atoi f0 = .ok v →
      getReport path (.ok s) =
        (some { Codec := f1, BitrateType := "Overall",
                BitrateMbps := bitrateMbpsQ v, Width := w, Height := h },
          none)) := by
  refine ⟨fun v h4 hv => ?_, fun v h4 h5 hv => ?_,
    fun v h4 h5 h6 hv => ?_, fun v h4 h5 h6 h0 hv => ?_⟩ <;>
    simp_all [getReport, hsplit, parseReport_seven, finishReport]

/-- Witness for C5: a concrete line where field 4 wins over fields 5 and 6. -/
theorem bitrate_priority_chain_witness :
    getReport "w/clip.mp4" (.ok ",AVC,1920,1080,2097152,77,88") =
      (some { Codec := "AVC", BitrateType := "Variable",
              BitrateMbps := bitrateMbpsQ 2097152,
              Width := 1920, Height := 1080 }, none) :=
  (bitrate_priority_chain "w/clip.mp4" ",AVC,1920,1080,2097152,77,88"
      "" "AVC" "1920" "1080" "2097152" "77" "88" (by decide)
      1920 1080 (by rfl) (by rfl)).1
    2097152 (by decide) (by rfl)

/-- C6 counterexample: the adapter performs no sign check, so a probe line
whose width field is "-1" yields a SUCCESSFUL report with negative Width,
refuting the claim that a successful record never has negative dimensions. -/
theorem report_with_negative_width :
    (getReport "neg.mkv" (.ok ",AVC,-1,1080,100,,")).2 = none ∧
    ((getReport "neg.mkv" (.ok ",AVC,-1,1080,100,,")).1.getD {}).Width = -1 := by
  decide

/-- C6 amended: when the width and height fields of a 7-field probe line do
not begin with a minus sign, any successfully constructed record has
non-negative Width and Height (the adapter itself validates nothing beyond
integer syntax). -/
theorem width_height_nonneg_of_unsigned (path s : String)
    (f0 f1 f2 f3 f4 f5 f6 : String)
    (hsplit : splitOnComma (trimSuffixNewline s) = [f0, f1, f2, f3, f4, f5, f6])
    (h2 : ¬ f2.toList.head? = some '-') (h3 : ¬ f3.toList.head? = some '-')
    (r : Report) (hok : getReport path (.ok s) = (some r, none)) :
    0 ≤ r.Width ∧ 0 ≤ r.Height := by
  have hpr : parseReport path [f0, f1, f2, f3, f4, f5, f6] = (some r, none) := by
    rw [← hsplit]
    simpa [getReport] using hok
  obtain ⟨hW, hH⟩ := parseReport_ok_width_height path _ r hpr
  exact ⟨atoi_nonneg f2 r.Width hW h2, atoi_nonneg f3 r.Height hH h3⟩

/-- Witness for the amended C6 at a concrete unsigned probe line. -/
theorem width_height_nonneg_of_unsigned_witness :
    0 ≤ (({ Codec := "HEVC", BitrateType := "Nominal",
            BitrateMbps := bitrateMbpsQ 512, Width := 640,
            Height := 360 } : Report)).Width :=
  (width_height_nonneg_of_unsigned "w/v.mkv" ",HEVC,640,360,,,512"
      "" "HEVC" "640" "360" "" "" "512" (by decide) (by decide) (by decide)
      _ (by decide)).1

/-- C8: a name matching the video regex is classified Video and its entry
is dispatched to the probe task; a name matching the subtitle regex
(checked first) is classified Subtitle and skipped with no log; any other
name is classified Other and skipped with a logged notice. -/
theorem classifier_and_dispatch (e : WalkEntry) (rest : List WalkEntry)
    (st : ScanState) (hacc : e.accessErr = none) (hdir : e.isDir = false) :
    (videoFileRegexMatch e.name = true →
      classify e.name = .video ∧
      walkFiles probeTask_000 (e :: rest) st =
        walkFiles probeTask_000 rest (probeTask_000 e st)) ∧
    (subtitleFileRegexMatch e.name = true →
      classify e.name = .subtitle ∧
      walkFiles probeTask_000 (e :: rest) st = walkFiles probeTask_000 rest st) ∧
    (videoFileRegexMatch e.name = false → subtitleFileRegexMatch e.name = false →
      classify e.name = .other ∧
      walkFiles probeTask_000 (e :: rest) st =
        walkFiles probeTask_000 rest
          { st with logs := st.logs ++ [.skipNotice e.name] }) := by
  refine ⟨fun hv => ?_, fun hs => ?_, fun hnv hns => ?_⟩
  · have hns := video_not_subtitle e.name hv
    exact ⟨by simp [classify, hns, hv],
      by rw [walkFiles, hacc]; simp [hdir, hns, hv]⟩
  · exact ⟨by simp [classify, hs],
      by rw [walkFiles, hacc]; simp [hdir, hs]⟩
  · exact ⟨by simp [classify, hns, hnv],
      by rw [walkFiles, hacc]; simp [hdir, hns, hnv]⟩

/-- Witness for C8: one name of each class. -/
theorem classifier_and_dispatch_witness :
    classify "a.mp4" = FileClass.video ∧
    classify "b.srt" = FileClass.subtitle ∧
    classify "c.txt" = FileClass.other :=
  ⟨((classifier_and_dispatch ⟨"r/a.mp4", "a.mp4", false, 0, none,
      .error "", false⟩ [] initState rfl rfl).1 (by decide)).1,
   ((classifier_and_dispatch ⟨"r/b.srt", "b.srt", false, 0, none,
      .error "", false⟩ [] initState rfl rfl).2.1 (by decide)).1,
   ((classifier_and_dispatch ⟨"r/c.txt", "c.txt", false, 0, none,
      .error "", false⟩ [] initState rfl rfl).2.2 (by decide) (by decide)).1⟩

/-- C9: when the walk callback receives an access error for an entry, the
failure is logged, the error is returned and propagated as the walk's
result, and the remaining entries are never visited (the result does not
depend on them). -/
theorem access_error_halts_walk (e : WalkEntry) (rest : List WalkEntry)
    (st : ScanState) (msg : String) (h : e.accessErr = some msg) :
    walkFiles probeTask_000 (e :: rest) st =
      ({ st with logs := st.logs ++ [.accessError e.path msg] }, some msg) := by
  rw [walkFiles, h]

/-- Witness for C9: an unreadable directory followed by a video file that
is consequently never probed. -/
theorem access_error_halts_walk_witness :
    walkFiles probeTask_000
      [⟨"/r/secret", "secret", true, 0, some "permission denied",
        .error "", false⟩,
       ⟨"/r/later.mp4", "later.mp4", false, 9, none, .ok "", false⟩]
      initState =
      ({ out := { flushed := [], buffered := [CsvLine.header], failed := false },
         logs := [LogMsg.accessError "/r/secret" "permission denied"],
         panicked := false }, some "permission denied") :=
  access_error_halts_walk _ _ initState "permission denied" rfl

/-- C10: on every input, `getReport` returns a non-nil record pointer; on
every error path the record is Go's zero-valued `Report`; and on success
the bitrate classification is one of Variable, Constant, Nominal, Overall
— never empty. -/
theorem getReport_never_nil (path : String) (probe : Except String String) :
    (getReport path probe).1.isSome = true ∧
    ((getReport path probe).2.isSome = true →
      (getReport path probe).1 = some {}) ∧
    ((getReport path probe).2 = none →
      ∃ r, (getReport path probe).1 = some r ∧
        (r.BitrateType = "Variable" ∨ r.BitrateType = "Constant" ∨
         r.BitrateType = "Nominal" ∨ r.BitrateType = "Overall")) := by
  cases probe with
  | error msg => simp [getReport]
  | ok output =>
    simpa [getReport] using
      parseReport_total path (splitOnComma (trimSuffixNewline output))

/-- Witness for C10 at a failed subprocess: the record is the zero value. -/
theorem getReport_never_nil_witness :
    (getReport "w.mp4" (.error "boom")).1 = some {} :=
  (getReport_never_nil "w.mp4" (.error "boom")).2.1 (by decide)

end MediaAudit
